import Mathlib

/-!
Verification development for the HealthDocs uploader repository.

Embedded here, from the sources:
* `src/health-scan-share/src/utils/extractMedicalData.ts` — the structured
  medical-data extraction engine (`extractMedicalDataFromAnalysis`, the helper
  `extractBetween`, and the display formatter `formatExtractedDataForDisplay`).
  The JavaScript regular expressions are embedded as explicit pattern trees
  (`Reg`) run by a small backtracking matcher (`mrun`) implementing the
  semantics the source relies on: leftmost match, ordered alternation, greedy
  quantifiers, case-insensitive (`i`) flag, numbered capture groups, and
  `g`-flag enumeration of non-overlapping matches.
* `src/health-scan-share/src/pages/Index.tsx` — the per-document upload /
  analysis lifecycle driven by `handleFilesAdded`: the status fields of a
  document record, the simulated-progress interval callback, the
  upload-completion timeout, the analysis success / failure continuations and
  the non-image branch.

All definitions are executable: concrete runs are settled by `decide`.
-/

/-! ## JavaScript string primitives -/

/-- The whitespace test backing both the `\s` character class and
`String.prototype.trim` in the source's regexes (ASCII whitespace forms plus
no-break space; the concrete texts in this development only use space and
newline). -/
def jsSpace (c : Char) : Bool :=
  c == ' ' || c == '\t' || c == '\n' || c == '\r' ||
  c == Char.ofNat 11 || c == Char.ofNat 12 || c == Char.ofNat 160

def isAsciiAlpha (c : Char) : Bool :=
  ('A' ≤ c && c ≤ 'Z') || ('a' ≤ c && c ≤ 'z')

/-- `String.prototype.trim`: strip leading and trailing whitespace. -/
def jsTrim (l : List Char) : List Char :=
  ((l.dropWhile jsSpace).reverse.dropWhile jsSpace).reverse

/-- `text.slice(a, b)` on a character list. -/
def sub (s : List Char) (a b : Nat) : List Char :=
  (s.take b).drop a

/-- `parseInt` on an all-digit capture (the only shape the source feeds it). -/
def natOfDigits (l : List Char) : Nat :=
  l.foldl (fun n c => n * 10 + (c.toNat - 48)) 0

/-- The character filter of `.replace(/["\[\]]/g, '')`. -/
def notQB (c : Char) : Bool :=
  !(c == '"' || c == '[' || c == ']')

/-! ## Character classes of the source's regexes -/

inductive RCls where
  | lit (c : Char)
  | digit
  | space
  | alpha
  | upper
  | alphaSpace
  | alphaSpaceDot
  | alphaSpaceParen
  | dashSpace
  | slashSpace
  | slashDash
  | aposSpace
  | notQuote
  | notColon
  | notDot
deriving DecidableEq

/-- Whether character `c` is in class `k`; `ci` is the regex's `i` flag, which
in JavaScript also case-folds class membership (so `[A-Z]` under `i` accepts
lowercase letters). -/
def RCls.mem (k : RCls) (ci : Bool) (c : Char) : Bool :=
  match k with
  | .lit d => if ci then c.toUpper == d.toUpper else c == d
  | .digit => c.isDigit
  | .space => jsSpace c
  | .alpha => isAsciiAlpha c
  | .upper => if ci then isAsciiAlpha c else ('A' ≤ c && c ≤ 'Z')
  | .alphaSpace => isAsciiAlpha c || jsSpace c
  | .alphaSpaceDot => isAsciiAlpha c || jsSpace c || c == '.'
  | .alphaSpaceParen => isAsciiAlpha c || jsSpace c || c == '(' || c == ')'
  | .dashSpace => c == '-' || jsSpace c
  | .slashSpace => c == '/' || jsSpace c
  | .slashDash => c == '-' || c == '/'
  | .aposSpace => c == Char.ofNat 39 || jsSpace c
  | .notQuote => c != '"'
  | .notColon => c != ':'
  | .notDot => c != '.'

/-! ## Regex trees and the backtracking matcher -/

inductive Reg where
  | eps
  | cls (k : RCls)
  | seq (a b : Reg)
  | alt (a b : Reg)
  | opt (a : Reg)
  | star (a : Reg)
  | group (n : Nat) (a : Reg)
deriving DecidableEq

/-- Literal string pattern (each character matched through the `i`-aware
`RCls.lit`). -/
def litS (t : String) : Reg :=
  t.data.foldr (fun c r => .seq (.cls (.lit c)) r) .eps

/-- `p+` as `p p*`. -/
def rplus (a : Reg) : Reg := .seq a (.star a)

def seqL (l : List Reg) : Reg := l.foldr .seq .eps

/-- `p{n}`. -/
def repN : Nat → Reg → Reg
  | 0, _ => .eps
  | n + 1, a => .seq a (repN n a)

/-- `p{0,n}` (greedy). -/
def upToN : Nat → Reg → Reg
  | 0, _ => .eps
  | n + 1, a => .seq (.opt a) (upToN n a)

/-- `p{m,n}` (greedy). -/
def fromTo (m n : Nat) (a : Reg) : Reg := .seq (repN m a) (upToN (n - m) a)

/-- `p{m,}` (greedy). -/
def atLeast (m : Nat) (a : Reg) : Reg := .seq (repN m a) (.star a)

/-- Captures: `(group index, start, stop)` in source-text positions. -/
abbrev Caps := List (Nat × Nat × Nat)

def setCap (n a b : Nat) (cs : Caps) : Caps :=
  (n, a, b) :: cs.filter (fun t => t.1 ≠ n)

def getCap (n : Nat) (cs : Caps) : Option (Nat × Nat) :=
  (cs.find? (fun t => t.1 = n)).map (fun t => t.2)

abbrev MRes := Nat × Caps

abbrev Kont := Nat → Caps → Option MRes

/-- One layer of the backtracking matcher: structural recursion over the
pattern; re-entering a `star` after a progressing iteration is delegated to
`starRun` so that the iteration count can be bounded by `mrun`'s fuel.
Alternatives and the optional quantifier try their first (greedy) branch
before falling back, giving JavaScript's ordered-choice semantics; a `star`
iteration that consumes nothing terminates the loop, as in JavaScript. -/
def mgo (ci : Bool) (s : List Char)
    (starRun : Reg → Nat → Caps → Kont → Option MRes) :
    Reg → Nat → Caps → Kont → Option MRes
  | .eps, i, cs, k => k i cs
  | .cls c, i, cs, k =>
    match s.get? i with
    | some ch => if c.mem ci ch then k (i + 1) cs else none
    | none => none
  | .seq a b, i, cs, k =>
    mgo ci s starRun a i cs (fun j cs2 => mgo ci s starRun b j cs2 k)
  | .alt a b, i, cs, k =>
    Option.orElse (mgo ci s starRun a i cs k) (fun _ => mgo ci s starRun b i cs k)
  | .opt a, i, cs, k =>
    Option.orElse (mgo ci s starRun a i cs k) (fun _ => k i cs)
  | .star a, i, cs, k =>
    Option.orElse
      (mgo ci s starRun a i cs
        (fun j cs2 => if i < j then starRun (.star a) j cs2 k else k j cs2))
      (fun _ => k i cs)
  | .group n a, i, cs, k =>
    mgo ci s starRun a i cs (fun j cs2 => k j (setCap n i j cs2))

/-- The matcher with a fuel bound on star iterations.  Every starred
subpattern of the embedded regexes consumes at least one character per
iteration, so fuel `s.length + 2` (used by `matchAt`) never runs out. -/
def mrun (ci : Bool) (s : List Char) : Nat → Reg → Nat → Caps → Kont → Option MRes
  | 0 => mgo ci s (fun _ j cs k => k j cs)
  | fuel + 1 => mgo ci s (fun r j cs k => mrun ci s fuel r j cs k)

/-- Try to match `re` at position `i` of `s`; returns the end position and the
captures (greedy leftmost-at-`i` semantics). -/
def matchAt (ci : Bool) (s : List Char) (re : Reg) (i : Nat) : Option MRes :=
  mrun ci s (s.length + 2) re i [] (fun j cs => some (j, cs))

/-- Scan positions `i, i+1, …, s.length` for the first (leftmost) match:
`String.prototype.match` without the `g` flag.  Returns
`(match.index, end of match[0], captures)`. -/
def searchFromAux (ci : Bool) (s : List Char) (re : Reg) : Nat → Nat → Option (Nat × Nat × Caps)
  | _, 0 => none
  | i, fuel + 1 =>
    match matchAt ci s re i with
    | some (j, cs) => some (i, j, cs)
    | none => if i < s.length then searchFromAux ci s re (i + 1) fuel else none

def searchFrom (ci : Bool) (s : List Char) (re : Reg) (i : Nat) : Option (Nat × Nat × Caps) :=
  searchFromAux ci s re i (s.length + 1 - i)

/-- All non-overlapping matches, resuming after each match (advancing by one
position on an empty match): `String.prototype.match` with the `g` flag,
keeping the spans of the full matches. -/
def matchAllAux (ci : Bool) (s : List Char) (re : Reg) : Nat → Nat → List (Nat × Nat)
  | _, 0 => []
  | i, fuel + 1 =>
    match searchFrom ci s re i with
    | none => []
    | some (a, b, _) =>
      (a, b) :: matchAllAux ci s re (Nat.max (if a < b then b else a + 1) (i + 1)) fuel

def matchAll (ci : Bool) (s : List Char) (re : Reg) : List (Nat × Nat) :=
  matchAllAux ci s re 0 (s.length + 1)

/-! ## The regex literals of `extractMedicalData.ts`

Each definition transcribes one JavaScript regex literal; the paired `Bool` in
the pattern lists is the regex's `i` flag. -/

/-- `/(?:Name|Patient|Patient Name):\s*([A-Za-z\s]+)/i` -/
def namePat1 : Reg :=
  seqL [.alt (litS "Name") (.alt (litS "Patient") (litS "Patient Name")),
    litS ":", .star (.cls .space), .group 1 (rplus (.cls .alphaSpace))]

/-- `/Name:\s*"([^"]+)"/i` -/
def namePat2 : Reg :=
  seqL [litS "Name:", .star (.cls .space), litS "\"",
    .group 1 (rplus (.cls .notQuote)), litS "\""]

/-- `/Patient:\s*([A-Za-z\s]+)/i` -/
def namePat3 : Reg :=
  seqL [litS "Patient:", .star (.cls .space), .group 1 (rplus (.cls .alphaSpace))]

def namePatterns : List (Bool × Reg) := [(true, namePat1), (true, namePat2), (true, namePat3)]

/-- `/(\d+)[-\s]*year[-\s]*old/i` -/
def agePat1 : Reg :=
  seqL [.group 1 (rplus (.cls .digit)), .star (.cls .dashSpace), litS "year",
    .star (.cls .dashSpace), litS "old"]

/-- `/Age[\/\s]*Sex:\s*(\d+)/i` -/
def agePat2 : Reg :=
  seqL [litS "Age", .star (.cls .slashSpace), litS "Sex:", .star (.cls .space),
    .group 1 (rplus (.cls .digit))]

/-- `/Age:\s*(\d+)/i` -/
def agePat3 : Reg :=
  seqL [litS "Age:", .star (.cls .space), .group 1 (rplus (.cls .digit))]

/-- `/(\d+)\s*years?\s*old/i` -/
def agePat4 : Reg :=
  seqL [.group 1 (rplus (.cls .digit)), .star (.cls .space), litS "year",
    .opt (litS "s"), .star (.cls .space), litS "old"]

def agePatterns : List (Bool × Reg) :=
  [(true, agePat1), (true, agePat2), (true, agePat3), (true, agePat4)]

/-- `/(\d+)[-\s]*year[-\s]*old\s+(male|female)/i` — note that capture group 1
is the digit run, and the male/female alternative is capture group 2. -/
def sexPat1 : Reg :=
  seqL [.group 1 (rplus (.cls .digit)), .star (.cls .dashSpace), litS "year",
    .star (.cls .dashSpace), litS "old", rplus (.cls .space),
    .group 2 (.alt (litS "male") (litS "female"))]

/-- `/Age[\/\s]*Sex:\s*\d+[\/\s]*(male|female)/i` -/
def sexPat2 : Reg :=
  seqL [litS "Age", .star (.cls .slashSpace), litS "Sex:", .star (.cls .space),
    rplus (.cls .digit), .star (.cls .slashSpace),
    .group 1 (.alt (litS "male") (litS "female"))]

/-- `/(male|female)/i` -/
def sexPat3 : Reg :=
  .group 1 (.alt (litS "male") (litS "female"))

def sexPatterns : List (Bool × Reg) := [(true, sexPat1), (true, sexPat2), (true, sexPat3)]

/-- `/Date:\s*([0-9]{1,2}[-\/][0-9]{1,2}[-\/][0-9]{2,4})/i` -/
def datePat1 : Reg :=
  seqL [litS "Date:", .star (.cls .space),
    .group 1 (seqL [fromTo 1 2 (.cls .digit), .cls .slashDash,
      fromTo 1 2 (.cls .digit), .cls .slashDash, fromTo 2 4 (.cls .digit)])]

/-- `/([0-9]{1,2}[-\/][A-Za-z]{3}[-\/][0-9]{2,4})/i` -/
def datePat2 : Reg :=
  .group 1 (seqL [fromTo 1 2 (.cls .digit), .cls .slashDash,
    repN 3 (.cls .alpha), .cls .slashDash, fromTo 2 4 (.cls .digit)])

/-- `/(\d{1,2}[-\/]\d{1,2}[-\/]\d{2,4})/` (the only pattern without the `i`
flag) -/
def datePat3 : Reg :=
  .group 1 (seqL [fromTo 1 2 (.cls .digit), .cls .slashDash,
    fromTo 1 2 (.cls .digit), .cls .slashDash, fromTo 2 4 (.cls .digit)])

/-- `/Date:\s*"([^"]+)"/i` -/
def datePat4 : Reg :=
  seqL [litS "Date:", .star (.cls .space), litS "\"",
    .group 1 (rplus (.cls .notQuote)), litS "\""]

def datePatterns : List (Bool × Reg) :=
  [(true, datePat1), (true, datePat2), (false, datePat3), (true, datePat4)]

/-- `(?:,\s*([A-Z]{2,}(?:,\s*[A-Z]{2,})*))?` — the optional qualification tail
shared by the first two doctor patterns. -/
def doctorQualTail : Reg :=
  .opt (seqL [litS ",", .star (.cls .space),
    .group 2 (seqL [atLeast 2 (.cls .upper),
      .star (seqL [litS ",", .star (.cls .space), atLeast 2 (.cls .upper)])])])

/-- `/Doctor['\s]*s?\s*[Nn]ame[^:]*:\s*([A-Za-z\s\.]+)(?:,\s*([A-Z]{2,}(?:,\s*[A-Z]{2,})*))?/i` -/
def doctorPat1 : Reg :=
  seqL [litS "Doctor", .star (.cls .aposSpace), .opt (litS "s"),
    .star (.cls .space), litS "name", .star (.cls .notColon), litS ":",
    .star (.cls .space), .group 1 (rplus (.cls .alphaSpaceDot)), doctorQualTail]

/-- `/Dr\.?\s*([A-Za-z\s\.]+)(?:,\s*([A-Z]{2,}(?:,\s*[A-Z]{2,})*))?/i` -/
def doctorPat2 : Reg :=
  seqL [litS "Dr", .opt (litS "."), .star (.cls .space),
    .group 1 (rplus (.cls .alphaSpaceDot)), doctorQualTail]

/-- `/Physician:\s*([A-Za-z\s\.]+)/i` -/
def doctorPat3 : Reg :=
  seqL [litS "Physician:", .star (.cls .space), .group 1 (rplus (.cls .alphaSpaceDot))]

def doctorPatterns : List (Bool × Reg) :=
  [(true, doctorPat1), (true, doctorPat2), (true, doctorPat3)]

/-- `/Hospital[\/\s]*Facility:\s*([A-Za-z\s]+)/i` -/
def hospitalPat1 : Reg :=
  seqL [litS "Hospital", .star (.cls .slashSpace), litS "Facility:",
    .star (.cls .space), .group 1 (rplus (.cls .alphaSpace))]

/-- `/Clinic[^:]*:\s*([A-Za-z\s]+)/i` -/
def hospitalPat2 : Reg :=
  seqL [litS "Clinic", .star (.cls .notColon), litS ":", .star (.cls .space),
    .group 1 (rplus (.cls .alphaSpace))]

/-- `/Hospital:\s*([A-Za-z\s]+)/i` -/
def hospitalPat3 : Reg :=
  seqL [litS "Hospital:", .star (.cls .space), .group 1 (rplus (.cls .alphaSpace))]

/-- `/Medical Center:\s*([A-Za-z\s]+)/i` -/
def hospitalPat4 : Reg :=
  seqL [litS "Medical Center:", .star (.cls .space), .group 1 (rplus (.cls .alphaSpace))]

def hospitalPatterns : List (Bool × Reg) :=
  [(true, hospitalPat1), (true, hospitalPat2), (true, hospitalPat3), (true, hospitalPat4)]

/-- `/Document Type[^:]*:\s*([A-Za-z\s\(\)]+)/i` -/
def docTypePat1 : Reg :=
  seqL [litS "Document Type", .star (.cls .notColon), litS ":",
    .star (.cls .space), .group 1 (rplus (.cls .alphaSpaceParen))]

/-- `/(X-ray|CT|MRI|Ultrasound|Prescription|Lab Report|Medical Report)/i` -/
def docTypePat2 : Reg :=
  .group 1 (.alt (litS "X-ray") (.alt (litS "CT") (.alt (litS "MRI")
    (.alt (litS "Ultrasound") (.alt (litS "Prescription")
      (.alt (litS "Lab Report") (litS "Medical Report")))))))

/-- `/Modality[^:]*:\s*([A-Za-z\s]+)/i` -/
def docTypePat3 : Reg :=
  seqL [litS "Modality", .star (.cls .notColon), litS ":", .star (.cls .space),
    .group 1 (rplus (.cls .alphaSpace))]

def docTypePatterns : List (Bool × Reg) :=
  [(true, docTypePat1), (true, docTypePat2), (true, docTypePat3)]

/-- `/\*\*Key Findings\*\*:?\s*/i` -/
def findingsStart : Reg :=
  seqL [litS "**Key Findings**", .opt (litS ":"), .star (.cls .space)]

/-- `/\*\*(?:Diagnostic Assessment|Patient-Friendly|Disclaimer)/i` -/
def findingsEnd : Reg :=
  .seq (litS "**") (.alt (litS "Diagnostic Assessment")
    (.alt (litS "Patient-Friendly") (litS "Disclaimer")))

/-- `/\*\*Diagnostic Assessment\*\*:?\s*/i` -/
def diagnosisStart : Reg :=
  seqL [litS "**Diagnostic Assessment**", .opt (litS ":"), .star (.cls .space)]

/-- `/\*\*(?:Patient-Friendly|Disclaimer)/i` -/
def diagnosisEnd : Reg :=
  .seq (litS "**") (.alt (litS "Patient-Friendly") (litS "Disclaimer"))

/-- `/\*\*Patient-Friendly Explanation\*\*:?\s*/i` -/
def recommendationsStart : Reg :=
  seqL [litS "**Patient-Friendly Explanation**", .opt (litS ":"), .star (.cls .space)]

/-- `/\*\*?Disclaimer/i` -/
def recommendationsEnd : Reg :=
  seqL [litS "*", .opt (litS "*"), litS "Disclaimer"]

/-- `/(?:medication|medicine|drug)s?[^:]*:/i` — the label part, also used by
the per-match `.replace(..., '')` strip. -/
def medicationLabel : Reg :=
  seqL [.alt (litS "medication") (.alt (litS "medicine") (litS "drug")),
    .opt (litS "s"), .star (.cls .notColon), litS ":"]

/-- `/(?:medication|medicine|drug)s?[^:]*:([^\.]+)/gi` -/
def medicationClause : Reg :=
  .seq medicationLabel (.group 1 (rplus (.cls .notDot)))

/-- `/^\d+\.\s*/` — the leading-enumerator strip applied to section slices. -/
def leadingEnum : Reg :=
  seqL [rplus (.cls .digit), litS ".", .star (.cls .space)]

/-! ## `ExtractedMedicalData` and `extractMedicalDataFromAnalysis` -/

/-- The `ExtractedMedicalData` interface: every field except `originalText`
is optional (absent = pattern not matched). -/
structure ExtractedMedicalData where
  patientName : Option String := none
  age : Option Nat := none
  sex : Option String := none
  date : Option String := none
  doctorName : Option String := none
  doctorQualification : Option String := none
  hospitalName : Option String := none
  documentType : Option String := none
  diagnosis : Option String := none
  medications : Option (List String) := none
  findings : Option String := none
  recommendations : Option String := none
  originalText : String
deriving DecidableEq

/-- The source's first-match-wins loop shape
`for (pattern of ps) { const m = text.match(pattern); if (m && m[1]) { use m[1]; break } }`:
the first pattern whose match has a truthy (participating and non-empty)
capture group 1 supplies the raw capture; otherwise the loop falls through. -/
def firstCap1 (t : List Char) : List (Bool × Reg) → Option (List Char)
  | [] => none
  | (ci, p) :: rest =>
    match searchFrom ci t p 0 with
    | some (_, _, cs) =>
      match getCap 1 cs with
      | some (a, b) => if a < b then some (sub t a b) else firstCap1 t rest
      | none => firstCap1 t rest
    | none => firstCap1 t rest

/-- `match[1].trim().replace(/["\[\]]/g, '')` -/
def cleanCapture (v : List Char) : String :=
  ((jsTrim v).filter notQB).asString

/-- The sex loop carries the `!extracted.sex` guard of the source:
`if (match && match[1] && !extracted.sex) { extracted.sex = match[1].toLowerCase(); break; }`.
Note it stores capture group **1** (for `sexPat1` that is the age digits). -/
def sexLoop (t : List Char) : List (Bool × Reg) → Option String → Option String
  | [], acc => acc
  | (ci, p) :: rest, acc =>
    match searchFrom ci t p 0 with
    | some (_, _, cs) =>
      match getCap 1 cs with
      | some (a, b) =>
        if a < b && acc.isNone then some (((sub t a b).map Char.toLower).asString)
        else sexLoop t rest acc
      | none => sexLoop t rest acc
    | none => sexLoop t rest acc

/-- The doctor loop: capture 1 (trimmed, quote/bracket-stripped) is the name;
capture 2, when truthy, is the trimmed qualification. -/
def doctorLoop (t : List Char) : List (Bool × Reg) → Option (String × Option String)
  | [] => none
  | (ci, p) :: rest =>
    match searchFrom ci t p 0 with
    | some (_, _, cs) =>
      match getCap 1 cs with
      | some (a, b) =>
        if a < b then
          some (cleanCapture (sub t a b),
            match getCap 2 cs with
            | some (c2, d2) =>
              if c2 < d2 then some ((jsTrim (sub t c2 d2)).asString) else none
            | none => none)
        else doctorLoop t rest
      | none => doctorLoop t rest
    | none => doctorLoop t rest

/-- The source's `extractBetween(text, start, end?)` helper: find the start
anchor (case-insensitively, leftmost), then the earliest subsequent terminator
anchor (or the end of the string), and return the trimmed slice strictly
between them.  `none` when the start anchor does not occur. -/
def extractBetween (text : List Char) (start : Reg) (stop : Option Reg) : Option (List Char) :=
  match searchFrom true text start 0 with
  | none => none
  | some (_, matchStop, _) =>
    let endIndex :=
      match stop with
      | some e =>
        match searchFrom true (text.drop matchStop) e 0 with
        | some (j, _, _) => matchStop + j
        | none => text.length
      | none => text.length
    some (jsTrim (sub text matchStop endIndex))

/-- `.replace(/^\d+\.\s*/, '')`: the pattern is anchored, so only a match at
position 0 is removed. -/
def stripLeadingEnum (l : List Char) : List Char :=
  match matchAt true l leadingEnum 0 with
  | some (j, _) => l.drop j
  | none => l

/-- A section slice is stored only when the (already trimmed) slice is truthy,
then enumerator-stripped and re-trimmed. -/
def sectionField (text : List Char) (start stop : Reg) : Option String :=
  match extractBetween text start (some stop) with
  | some v => if v.isEmpty then none else some ((jsTrim (stripLeadingEnum v)).asString)
  | none => none

/-- `match.replace(/(?:medication|medicine|drug)s?[^:]*:/i, '')`: remove the
first occurrence of the label pattern. -/
def stripLabelOnce (m : List Char) : List Char :=
  match searchFrom true m medicationLabel 0 with
  | some (a, b, _) => sub m 0 a ++ m.drop b
  | none => m

/-- The medications block: all `g`-flag matches, each label-stripped and
trimmed, empty results discarded; the field is set (possibly to `[]`) exactly
when the global match found at least one clause. -/
def medicationsField (t : List Char) : Option (List String) :=
  match matchAll true t medicationClause with
  | [] => none
  | spans =>
    some ((spans.map (fun ab => (jsTrim (stripLabelOnce (sub t ab.1 ab.2))).asString)).filter
      (fun v => v ≠ ""))

/-- `extractMedicalDataFromAnalysis` of `extractMedicalData.ts`.  The source
fills the fields of one record in sequence; no field read feeds another
field's pattern matching, so the record is assembled here in a single literal
with the same per-field computations. -/
def extractMedicalDataFromAnalysis (analysisText : String) : ExtractedMedicalData :=
  let t := analysisText.data
  { patientName := (firstCap1 t namePatterns).map cleanCapture
    age := (firstCap1 t agePatterns).map natOfDigits
    sex := sexLoop t sexPatterns none
    date := (firstCap1 t datePatterns).map cleanCapture
    doctorName := (doctorLoop t doctorPatterns).map (fun x => x.1)
    doctorQualification := (doctorLoop t doctorPatterns).bind (fun x => x.2)
    hospitalName := (firstCap1 t hospitalPatterns).map cleanCapture
    documentType := (firstCap1 t docTypePatterns).map cleanCapture
    diagnosis := sectionField t diagnosisStart diagnosisEnd
    medications := medicationsField t
    findings := sectionField t findingsStart findingsEnd
    recommendations := sectionField t recommendationsStart recommendationsEnd
    originalText := analysisText }

/-! ## `formatExtractedDataForDisplay` -/

/-- JavaScript truthiness of an optional string field (`undefined` and `""`
are falsy). -/
def truthyS : Option String → Bool
  | some v => !v.isEmpty
  | none => false

/-- JavaScript truthiness of an optional number field (`undefined` and `0`
are falsy). -/
def truthyN : Option Nat → Bool
  | some n => n != 0
  | none => false

def patientLine (d : ExtractedMedicalData) : String :=
  let info :=
    (if truthyS d.patientName then ["Name: " ++ d.patientName.getD ""] else []) ++
    (if truthyN d.age then ["Age: " ++ toString (d.age.getD 0)] else []) ++
    (if truthyS d.sex then ["Sex: " ++ d.sex.getD ""] else [])
  "**Patient:** " ++ String.intercalate ", " info

def documentLine (d : ExtractedMedicalData) : String :=
  let info :=
    (if truthyS d.documentType then ["Type: " ++ d.documentType.getD ""] else []) ++
    (if truthyS d.date then ["Date: " ++ d.date.getD ""] else [])
  "**Document:** " ++ String.intercalate ", " info

def providerLine (d : ExtractedMedicalData) : String :=
  let info :=
    (if truthyS d.doctorName then
      ["Doctor: " ++ (if truthyS d.doctorQualification then
        d.doctorName.getD "" ++ ", " ++ d.doctorQualification.getD ""
      else d.doctorName.getD "")] else []) ++
    (if truthyS d.hospitalName then ["Hospital: " ++ d.hospitalName.getD ""] else [])
  "**Provider:** " ++ String.intercalate ", " info

/-- `formatExtractedDataForDisplay` of `extractMedicalData.ts`: the section
list in source order, joined by blank lines. -/
def formatExtractedDataForDisplay (d : ExtractedMedicalData) : String :=
  let sections :=
    (if truthyS d.patientName || truthyN d.age || truthyS d.sex then [patientLine d] else []) ++
    (if truthyS d.date || truthyS d.documentType then [documentLine d] else []) ++
    (if truthyS d.doctorName || truthyS d.hospitalName then [providerLine d] else []) ++
    (if truthyS d.findings then ["**Findings:** " ++ d.findings.getD ""] else []) ++
    (if truthyS d.diagnosis then ["**Assessment:** " ++ d.diagnosis.getD ""] else []) ++
    (match d.medications with
     | some meds => if meds.length > 0 then ["**Medications:** " ++ String.intercalate ", " meds] else []
     | none => []) ++
    (if truthyS d.recommendations then ["**Summary:** " ++ d.recommendations.getD ""] else [])
  String.intercalate "\n\n" sections

/-! ## The document lifecycle of `Index.tsx` (`handleFilesAdded`)

Per-document state machine for the image branch: after the record is created
in `queued`, the handler immediately moves it to `uploading` with
`uploadProgress: 0`, installs the progress interval (the closure accumulator
`progress`), and schedules the upload-completion timeout.  From there the
asynchronous callbacks are modelled as events:

* `tick δ` — one firing of the interval callback, `δ` being that firing's
  `Math.random() * 10` (a real-valued delta in the source; the callback uses
  it only through addition, comparison with 100 and `Math.min`, so the delta
  domain is modelled by the integers, which the kernel can evaluate).  The callback adds `δ` to the closure accumulator and
  either clears the interval (accumulator ≥ 100, no record update) or writes
  `uploadProgress = min(accumulator, 100)` into the record — with no check of
  the record's status.
* `uploadComplete` — the `setTimeout` body: status `extracting`,
  `uploadProgress = 100`, then the analysis call is issued.  Fires once.
* `analysisSuccess analysis date rid` — the analysis promise resolved with
  `success = true`: status `done`, metadata synthesized from
  `extractMedicalDataFromAnalysis`.  `date` is `new Date().toISOString()`'s
  date part and `rid` the random record-id suffix, both supplied by the
  environment.
* `analysisFailure msg date rid` — the analysis promise rejected or resolved
  with `success = false` (the source throws, landing in the same catch):
  status `done`, placeholder error metadata.

The one-shot nature and relative order of the callbacks (`uploadComplete`
before the analysis result) is tracked by `phase`; an event arriving out of
phase cannot occur in the source's event loop and leaves the state unchanged.
Ticks carry no phase guard, exactly as in the source.

The non-image branch of `handleFilesAdded` performs no upload simulation and
no analysis: it updates the freshly created record straight to `done` with the
`basicMetadata` placeholder. -/

inductive DocStatus where
  | queued
  | uploading
  | extracting
  | done
  | error
deriving DecidableEq

/-- The `DocumentMetadata` fields the lifecycle writes. -/
structure DocumentMetadata where
  doctorName : String
  date : String
  documentType : String
  recordId : String
  extractedText : String
  fullAnalysis : Option String := none
deriving DecidableEq

/-- The lifecycle-relevant fields of a `Document` record. -/
structure Doc where
  status : DocStatus
  uploadProgress : Option ℤ := none
  metadata : Option DocumentMetadata := none
deriving DecidableEq

/-- A freshly created record (`status: 'queued'`, no progress, no metadata). -/
def createDoc : Doc := { status := .queued }

inductive Phase where
  | started
  | uploaded
  | finished
deriving DecidableEq

structure ProcState where
  doc : Doc
  progressAcc : ℤ
  intervalActive : Bool
  phase : Phase
deriving DecidableEq

inductive Event where
  | tick (δ : ℤ)
  | uploadComplete
  | analysisSuccess (analysis date rid : String)
  | analysisFailure (msg date rid : String)

/-- The interval callback:
`progress += δ; if (progress >= 100) clearInterval else set uploadProgress = min(progress, 100)`.
It never touches `status`, and it runs regardless of the record's current
status. -/
def tickStep (s : ProcState) (δ : ℤ) : ProcState :=
  if s.intervalActive then
    if 100 ≤ s.progressAcc + δ then
      { s with progressAcc := s.progressAcc + δ, intervalActive := false }
    else
      { s with progressAcc := s.progressAcc + δ,
               doc := { s.doc with uploadProgress := some (min (s.progressAcc + δ) 100) } }
  else s

/-- JavaScript's truthiness fallback `a || b` for an optional string. -/
def jsOr (a : Option String) (b : String) : String :=
  match a with
  | some v => if v.isEmpty then b else v
  | none => b

/-- The metadata synthesized on analysis success (`aiMetadata` in the source),
built from the structured extraction of the analysis text. -/
def aiMetadata (analysis date rid : String) : DocumentMetadata :=
  let extracted := extractMedicalDataFromAnalysis analysis
  { doctorName := jsOr extracted.doctorName "AI Analysis"
    date := jsOr extracted.date date
    documentType := jsOr extracted.documentType "Medical Document (Python AI)"
    recordId := "PY-" ++ rid
    extractedText := formatExtractedDataForDisplay extracted
    fullAnalysis := some analysis }

/-- The placeholder metadata synthesized on analysis failure (`errorMetadata`
in the source). -/
def errorMetadata (msg date rid : String) : DocumentMetadata :=
  { doctorName := "Analysis Failed"
    date := date
    documentType := "Medical Document"
    recordId := "ERROR-" ++ rid
    extractedText := "Python backend analysis failed: " ++ msg ++ ". Manual review required." }

def step (s : ProcState) (e : Event) : ProcState :=
  match e with
  | .tick δ => tickStep s δ
  | .uploadComplete =>
    if s.phase = .started then
      { s with doc := { s.doc with status := .extracting, uploadProgress := some 100 },
               phase := .uploaded }
    else s
  | .analysisSuccess analysis date rid =>
    if s.phase = .uploaded then
      { s with
        doc := { s.doc with status := .done, metadata := some (aiMetadata analysis date rid) },
        phase := .finished }
    else s
  | .analysisFailure msg date rid =>
    if s.phase = .uploaded then
      { s with
        doc := { s.doc with status := .done, metadata := some (errorMetadata msg date rid) },
        phase := .finished }
    else s

/-- The image-branch state right after submission: the record has been moved
`queued → uploading` with `uploadProgress: 0`, the interval is live, and the
closure accumulator starts at 0. -/
def imageInit : ProcState :=
  { doc := { status := .uploading, uploadProgress := some 0 }
    progressAcc := 0
    intervalActive := true
    phase := .started }

/-- An interleaving of callback events applied to the image pipeline. -/
def run (es : List Event) : ProcState :=
  es.foldl step imageInit

/-- The non-image branch: the created record is updated directly to `done`
with the placeholder metadata; no upload simulation, no analysis call. -/
def basicMetadata (date rid : String) : DocumentMetadata :=
  { doctorName := "No Analysis"
    date := date
    documentType := "Document (Non-image)"
    recordId := "REF-" ++ rid
    extractedText := "Non-image file uploaded. No AI analysis performed." }

def nonImageFinish (d : Doc) (date rid : String) : Doc :=
  { d with status := .done, metadata := some (basicMetadata date rid) }

/-- The successive statuses a non-image document record passes through. -/
def nonImageStatusTrace (date rid : String) : List DocStatus :=
  [createDoc.status, (nonImageFinish createDoc date rid).status]

/-- Pipeline order of statuses (`done` and `error` both terminal). -/
def statusRank : DocStatus → Nat
  | .queued => 0
  | .uploading => 1
  | .extracting => 2
  | .done => 3
  | .error => 3

/-! ## Lifecycle invariants -/

theorem tickStep_status (s : ProcState) (δ : ℤ) :
    (tickStep s δ).doc.status = s.doc.status := by
  unfold tickStep
  split
  · split <;> rfl
  · rfl

theorem tickStep_phase (s : ProcState) (δ : ℤ) :
    (tickStep s δ).phase = s.phase := by
  unfold tickStep
  split
  · split <;> rfl
  · rfl

theorem step_uploadProgress_isSome (s : ProcState) (e : Event)
    (h : (s.doc.uploadProgress).isSome) :
    ((step s e).doc.uploadProgress).isSome := by
  cases e <;> simp only [step, tickStep] <;> (repeat' split) <;> simp_all

/-- The relative order of the one-shot callbacks links `phase` to the
record's status. -/
def PhaseInv (s : ProcState) : Prop :=
  (s.phase = .started → s.doc.status = .uploading) ∧
  (s.phase = .uploaded → s.doc.status = .extracting) ∧
  (s.phase = .finished → s.doc.status = .done)

theorem phaseInv_step (s : ProcState) (e : Event) (h : PhaseInv s) :
    PhaseInv (step s e) := by
  obtain ⟨h1, h2, h3⟩ := h
  cases e with
  | tick δ =>
    show PhaseInv (tickStep s δ)
    refine ⟨fun q => ?_, fun q => ?_, fun q => ?_⟩ <;>
      rw [tickStep_status] <;> rw [tickStep_phase] at q
    · exact h1 q
    · exact h2 q
    · exact h3 q
  | uploadComplete =>
    simp only [step]
    split <;> exact ⟨by simp_all, by simp_all, by simp_all⟩
  | analysisSuccess a d r =>
    simp only [step]
    split <;> exact ⟨by simp_all, by simp_all, by simp_all⟩
  | analysisFailure m d r =>
    simp only [step]
    split <;> exact ⟨by simp_all, by simp_all, by simp_all⟩

theorem statusRank_step (s : ProcState) (e : Event) (h : PhaseInv s) :
    statusRank s.doc.status ≤ statusRank (step s e).doc.status := by
  obtain ⟨h1, h2, h3⟩ := h
  cases e with
  | tick δ =>
    show statusRank s.doc.status ≤ statusRank (tickStep s δ).doc.status
    rw [tickStep_status s δ]
  | uploadComplete =>
    simp only [step]
    split
    · rename_i hp
      rw [h1 hp]
      show statusRank DocStatus.uploading ≤ statusRank DocStatus.extracting
      decide
    · exact le_refl _
  | analysisSuccess a d r =>
    simp only [step]
    split
    · rename_i hp
      rw [h2 hp]
      show statusRank DocStatus.extracting ≤ statusRank DocStatus.done
      decide
    · exact le_refl _
  | analysisFailure m d r =>
    simp only [step]
    split
    · rename_i hp
      rw [h2 hp]
      show statusRank DocStatus.extracting ≤ statusRank DocStatus.done
      decide
    · exact le_refl _

theorem foldl_preserve {P : ProcState → Prop}
    (hstep : ∀ s e, P s → P (step s e)) :
    ∀ (es : List Event) (s : ProcState), P s → P (es.foldl step s)
  | [], _, h => h
  | e :: es, s, h => foldl_preserve hstep es (step s e) (hstep s e h)

theorem run_phaseInv (es : List Event) : PhaseInv (run es) :=
  foldl_preserve phaseInv_step es imageInit ⟨fun _ => rfl, by simp [imageInit], by simp [imageInit]⟩

theorem run_uploadProgress_isSome (es : List Event) :
    ((run es).doc.uploadProgress).isSome :=
  foldl_preserve step_uploadProgress_isSome es imageInit rfl

theorem run_append_one (es : List Event) (e : Event) :
    run (es ++ [e]) = step (run es) e := by
  simp [run, List.foldl_append]

/-! ## Claims -/

/-- Claim C1: `extractMedicalDataFromAnalysis` is total over all string
inputs — a total Lean function by construction, so it terminates and never
raises — and the returned record's `originalText` always equals the input
exactly; on the empty string the returned record has `originalText` set and
every other field absent. -/
theorem extract_total_originalText :
    (∀ t : String, (extractMedicalDataFromAnalysis t).originalText = t) ∧
    extractMedicalDataFromAnalysis "" = { originalText := "" } :=
  ⟨fun _ => rfl, by decide⟩

/-- Claim C2 (failing run): on the input `"45-year-old male"` the extractor
sets `sex` to `"45"` — the value of capture group 1 of
`/(\d+)[-\s]*year[-\s]*old\s+(male|female)/i`, which is the age digits, not
the male/female alternative in group 2 — so the sex field is not confined to
`{male, female}`. -/
theorem extract_sex_capture_group_bug :
    (extractMedicalDataFromAnalysis "45-year-old male").sex = some "45" ∧
    "45" ∉ (["male", "female"] : List String) := by
  decide

/-- Claim C3 (failing run): on a text containing `"45-year-old male"` and a
later separate bare `"female"`, the high-specificity patterns do win for both
fields (the later bare token is not used), and `age = 45` as the claim says —
but the sex stored from the winning pattern is capture group 1, the digits
`"45"`, not `"male"`. -/
theorem extract_first_match_sex_bug :
    (extractMedicalDataFromAnalysis
        "Patient is a 45-year-old male. Seen later by a female colleague.").age = some 45 ∧
    (extractMedicalDataFromAnalysis
        "Patient is a 45-year-old male. Seen later by a female colleague.").sex = some "45" ∧
    (extractMedicalDataFromAnalysis
        "Patient is a 45-year-old male. Seen later by a female colleague.").sex ≠ some "male" := by
  decide

/-- Claim C4 (counterexample): after the transition that leaves `uploading`
for `extracting`, the record still carries `uploadProgress` — the transition
itself writes `uploadProgress: 100` — and it is still present (value 100)
after the transition to `done`; it is never cleared. -/
theorem uploadProgress_not_cleared_cex :
    (run [.uploadComplete]).doc.status = .extracting ∧
    (run [.uploadComplete]).doc.uploadProgress = some 100 ∧
    (run [.uploadComplete, .analysisFailure "err" "2024-01-01" "AB12CD34"]).doc.status = .done ∧
    (run [.uploadComplete, .analysisFailure "err" "2024-01-01" "AB12CD34"]).doc.uploadProgress
      = some 100 := by
  decide

/-- Claim C4 (amended): `uploadProgress` is absent on the freshly created
`queued` record, is set to 0 on entering `uploading`, is set to 100 by the
transition to `extracting`, and from the moment the image pipeline starts it
is present in every state reachable under any interleaving of callbacks —
it is never cleared when the status leaves `uploading`. -/
theorem uploadProgress_persists :
    createDoc.uploadProgress = none ∧
    imageInit.doc.uploadProgress = some 0 ∧
    (run [.uploadComplete]).doc.uploadProgress = some 100 ∧
    ∀ es : List Event, ((run es).doc.uploadProgress).isSome :=
  ⟨rfl, rfl, by decide, run_uploadProgress_isSome⟩

/-- Claim C5 (counterexample): a non-image file's record goes from `queued`
straight to `done`; its status sequence is `[queued, done]`, so it never
assumes the `uploading` status that the claimed sequence
`queued → uploading → done` requires. -/
theorem nonimage_skips_uploading_cex :
    nonImageStatusTrace "2024-01-01" "REF1" = [.queued, .done] ∧
    DocStatus.uploading ∉ nonImageStatusTrace "2024-01-01" "REF1" := by
  decide

/-- Claim C5 (amended): for every submitted non-image file the record's
status sequence is exactly `queued → done`, skipping both `uploading` and
`extracting`, and the record ends with the minimal placeholder metadata
object whose text records that no AI analysis was performed (the non-image
branch never issues an analysis call). -/
theorem nonimage_direct_done (date rid : String) :
    nonImageStatusTrace date rid = [.queued, .done] ∧
    DocStatus.uploading ∉ nonImageStatusTrace date rid ∧
    DocStatus.extracting ∉ nonImageStatusTrace date rid ∧
    (nonImageFinish createDoc date rid).metadata = some (basicMetadata date rid) ∧
    (basicMetadata date rid).extractedText
      = "Non-image file uploaded. No AI analysis performed." := by
  refine ⟨rfl, ?_, ?_, rfl, rfl⟩
  · show DocStatus.uploading ∉ [DocStatus.queued, DocStatus.done]
    decide
  · show DocStatus.extracting ∉ [DocStatus.queued, DocStatus.done]
    decide

/-- Claim C6 (counterexample): a progress tick that arrives after the record
has left `uploading` is not a no-op: right after the `uploading → extracting`
transition the record has `uploadProgress = 100`, and a late tick of 5 (the
closure accumulator still being 5 < 100) overwrites it with 5 while the
status is `extracting`. -/
theorem late_tick_overwrites_progress_cex :
    (run [.uploadComplete]).doc.uploadProgress = some 100 ∧
    (run [.uploadComplete, .tick 5]).doc.status = .extracting ∧
    (run [.uploadComplete, .tick 5]).doc.uploadProgress = some 5 ∧
    (run [.uploadComplete, .tick 5]).doc.uploadProgress
      ≠ (run [.uploadComplete]).doc.uploadProgress := by
  decide

/-- Claim C6 (amended): for every interleaving of progress ticks with the
completion callbacks the record's status is non-decreasing in pipeline order
(`queued < uploading < extracting < done/error`), and a progress tick never
changes the status of any state; late ticks can, however, still rewrite
`uploadProgress` (see the counterexample), so they are not complete no-ops. -/
theorem status_monotone_and_ticks_fix_status :
    (∀ (es : List Event) (e : Event),
      statusRank (run es).doc.status ≤ statusRank (run (es ++ [e])).doc.status) ∧
    (∀ (s : ProcState) (δ : ℤ), (step s (.tick δ)).doc.status = s.doc.status) :=
  ⟨fun es e => by
      rw [run_append_one]
      exact statusRank_step (run es) e (run_phaseInv es),
    fun s δ => tickStep_status s δ⟩

/-- Claim C7: whenever the analysis call for an image document fails (the
promise rejects, or resolves with `success = false` — the source throws into
the same catch), the document becomes `done`, never `error`, and its metadata
is the synthesized non-null placeholder describing the failure. -/
theorem analysis_failure_degrades_to_done (s : ProcState) (msg date rid : String)
    (h : s.phase = .uploaded) :
    (step s (.analysisFailure msg date rid)).doc.status = .done ∧
    (step s (.analysisFailure msg date rid)).doc.status ≠ .error ∧
    (step s (.analysisFailure msg date rid)).doc.metadata
      = some (errorMetadata msg date rid) ∧
    ((step s (.analysisFailure msg date rid)).doc.metadata).isSome := by
  simp [step, h]

/-- Witness for C7: a concrete post-upload state with a concrete failure. -/
theorem analysis_failure_degrades_to_done_witness :
    (step (run [.uploadComplete]) (.analysisFailure "network error" "2024-01-01" "AB12CD34")).doc.status = .done ∧
    (step (run [.uploadComplete]) (.analysisFailure "network error" "2024-01-01" "AB12CD34")).doc.status ≠ .error ∧
    (step (run [.uploadComplete]) (.analysisFailure "network error" "2024-01-01" "AB12CD34")).doc.metadata
      = some (errorMetadata "network error" "2024-01-01" "AB12CD34") ∧
    ((step (run [.uploadComplete]) (.analysisFailure "network error" "2024-01-01" "AB12CD34")).doc.metadata).isSome :=
  analysis_failure_degrades_to_done (run [.uploadComplete]) "network error" "2024-01-01" "AB12CD34"
    (by decide)

/-- Claim C8: section-slice extraction stops at the nearest terminator — the
spec's example yields `findings = "A B C"` exactly; with no terminator after
the anchor the slice runs to the end of the string; and with two terminator
anchors present the earliest one bounds the slice. -/
theorem findings_section_slice :
    (extractMedicalDataFromAnalysis
        "**Key Findings**: A B C **Diagnostic Assessment**: D E").findings = some "A B C" ∧
    (extractMedicalDataFromAnalysis "**Key Findings**: A B C").findings = some "A B C" ∧
    (extractMedicalDataFromAnalysis
        "**Key Findings**: A **Disclaimer** z **Diagnostic Assessment**: w").findings = some "A" := by
  decide

/-- Claim C9: medication extraction collects all non-overlapping matches in
source order — three labelled clauses give exactly the three stripped values,
duplicates preserved — and a clause whose payload trims to empty is
discarded (second input: four matches, three kept). -/
theorem medications_all_matches :
    (extractMedicalDataFromAnalysis
        "Medication: Aspirin. Medicines: Ibuprofen. Drug: Aspirin.").medications
      = some ["Aspirin", "Ibuprofen", "Aspirin"] ∧
    (extractMedicalDataFromAnalysis
        "Medication: . Medication: A. Medication: B. Medication: A.").medications
      = some ["A", "B", "A"] := by
  decide

/-- Claim C10: the display formatter treats `age = 0` (falsy in JavaScript)
exactly like an absent age — for every record, formatting with `age = some 0`
equals formatting with `age = none` — and a record whose only set optional
field is `age = 0` formats to the empty string. -/
theorem format_age_zero_omitted :
    (∀ d : ExtractedMedicalData,
      formatExtractedDataForDisplay { d with age := some 0 }
        = formatExtractedDataForDisplay { d with age := none }) ∧
    formatExtractedDataForDisplay { originalText := "x", age := some 0 } = "" :=
  ⟨fun _ => rfl, by decide⟩
